import Mathlib

/-!
Verification development for the relay file synchronization engine.

The Go source is shallowly embedded: pure functions become Lean functions,
filesystem and process effects are made explicit by passing the outcome of
each fallible external step (stat, open, read, write, copy, backup,
conflict prompt) as a parameter, and the per-file dispatch loop of the
orchestrator becomes a fold over the list of scanned source entries.
Machine int64 counters are modelled as `Int` (no overflow arises in the
scenarios treated here). The comments on each definition name the Go
function it embeds.
-/

namespace Relay

/-- Model of Go `error` values as relay builds them: leaf errors (generic
message, `syscall.Errno`, `fs.ErrNotExist`, `context.Canceled`,
`context.DeadlineExceeded`), `*os.PathError`, and `fmt.Errorf("...: %w", err)`
wrapping, whose message is the format text followed by the inner message. -/
inductive GoErr where
  | base (msg : String)
  | errno (code : Nat)
  | errNotExist
  | canceled
  | deadlineExceeded
  | pathError (op : String) (path : String) (inner : GoErr)
  | wrap (wrapMsg : String) (inner : GoErr)
deriving Repr, DecidableEq

/-- `syscall.Errno.Error()` strings for the codes used in this development
(ENOENT = 2, EACCES = 13). -/
def errnoMsg (code : Nat) : String :=
  if code = 2 then "no such file or directory"
  else if code = 13 then "permission denied"
  else "errno " ++ toString code

/-- The `Error()` string of a modelled Go error. `*os.PathError` renders as
`op path: inner`; wrapping renders as `text: inner` (relay always writes the
`%w` verb last, preceded by `": "`). -/
def GoErr.message : GoErr → String
  | .base m => m
  | .errno c => errnoMsg c
  | .errNotExist => "file does not exist"
  | .canceled => "context canceled"
  | .deadlineExceeded => "context deadline exceeded"
  | .pathError op p inner => op ++ " " ++ p ++ ": " ++ inner.message
  | .wrap m inner => m ++ ": " ++ inner.message

/-- `errors.Is(e, target)` for sentinel targets: walks the `Unwrap` chain
(`*os.PathError` and `fmt` wrap errors unwrap to their inner error). -/
def GoErr.is (e target : GoErr) : Bool :=
  (if e = target then true else false) ||
    match e with
    | .pathError _ _ inner => inner.is target
    | .wrap _ inner => inner.is target
    | _ => false

/-- `os.underlyingError`: unwraps exactly one layer of `*os.PathError`
(historically also `*os.LinkError` / `*os.SyscallError`); it does NOT follow
the generic `Unwrap` chain of `fmt.Errorf("%w")` wrap errors. -/
def underlyingError : GoErr → GoErr
  | .pathError _ _ inner => inner
  | e => e

/-- `os.IsNotExist`: true when the underlying error (per `underlyingError`)
is the `fs.ErrNotExist` sentinel or an errno satisfying
`Errno.Is(fs.ErrNotExist)` (ENOENT = 2 or ENOTDIR = 20 on Unix). -/
def osIsNotExist (e : GoErr) : Bool :=
  match underlyingError e with
  | .errNotExist => true
  | .errno c => decide (c = 2) || decide (c = 20)
  | _ => false

/-- Substring occurrence over character lists; an empty needle always
occurs. This is the semantics of `contains`/`indexContains` in retry.go. -/
def listContains : List Char → List Char → Bool
  | [], sub => sub.isEmpty
  | c :: rest, sub => sub.isPrefixOf (c :: rest) || listContains rest sub

/-- `contains(str, substr)` from retry.go: substring occurrence test. -/
def strContains (str substr : String) : Bool :=
  listContains str.data substr.data

/-- Network error patterns from `isNetworkError` in retry.go. -/
def networkPatterns : List String :=
  ["connection refused", "connection reset", "timeout",
   "network is unreachable", "temporary failure", "no route to host"]

/-- `isNetworkError` from retry.go: any network pattern occurs in the
error's message. -/
def isNetworkError (e : GoErr) : Bool :=
  networkPatterns.any (fun p => strContains e.message p)

/-- Permission error patterns from `isPermissionError` in retry.go. -/
def permissionPatterns : List String :=
  ["permission denied", "access denied", "operation not permitted",
   "insufficient privileges"]

/-- `isPermissionError` from retry.go. -/
def isPermissionError (e : GoErr) : Bool :=
  permissionPatterns.any (fun p => strContains e.message p)

/-- Disk-full error patterns from `isDiskFullError` in retry.go. -/
def diskFullPatterns : List String :=
  ["no space left on device", "disk full", "insufficient space",
   "not enough space"]

/-- `isDiskFullError` from retry.go. -/
def isDiskFullError (e : GoErr) : Bool :=
  diskFullPatterns.any (fun p => strContains e.message p)

/-- `isContextError` from retry.go: `errors.Is(err, context.Canceled) ||
errors.Is(err, context.DeadlineExceeded)`. -/
def isContextError (e : GoErr) : Bool :=
  e.is .canceled || e.is .deadlineExceeded

/-- Not-found error patterns from `isNotFoundError` in retry.go. -/
def notFoundPatterns : List String :=
  ["no such file or directory", "file not found", "path not found",
   "not found"]

/-- `isNotFoundError` from retry.go. -/
def isNotFoundError (e : GoErr) : Bool :=
  notFoundPatterns.any (fun p => strContains e.message p)

/-- I/O error patterns from `isIOError` in retry.go. -/
def ioPatterns : List String :=
  ["i/o error", "input/output error", "read error", "write error",
   "broken pipe", "connection broken"]

/-- `isIOError` from retry.go. -/
def isIOError (e : GoErr) : Bool :=
  ioPatterns.any (fun p => strContains e.message p)

/-- `RetryableError` from retry.go: an error together with its
retryable/fatal classification flags. -/
structure RetryableError where
  err : GoErr
  retryable : Bool
  fatal : Bool
deriving Repr, DecidableEq

/-- `NewRetryableError` from retry.go. -/
def newRetryableError (e : GoErr) (retryable : Bool) : RetryableError :=
  ⟨e, retryable, false⟩

/-- `NewFatalError` from retry.go: fatal, non-retryable. -/
def newFatalError (e : GoErr) : RetryableError :=
  ⟨e, false, true⟩

/-- `ClassifyError` from retry.go, for a non-nil error, with the source's
check order: network, permission, disk-full, context cancellation,
not-found, I/O, then the retryable default. -/
def classifyError (e : GoErr) : RetryableError :=
  if isNetworkError e then newRetryableError e true
  else if isPermissionError e then newRetryableError e false
  else if isDiskFullError e then newRetryableError e false
  else if isContextError e then newFatalError e
  else if isNotFoundError e then newRetryableError e false
  else if isIOError e then newRetryableError e true
  else newRetryableError e true

/-- `ErrorCategory` from errors.go. -/
inductive ErrorCategory where
  | unknown
  | network
  | permission
  | disk
  | corruption
  | configuration
  | cancellation
deriving Repr, DecidableEq

/-- `SyncError` from errors.go. The wall-clock `Timestamp` field is not
modelled; no claim mentions it. -/
structure SyncError where
  category : ErrorCategory
  operation : String
  path : String
  message : String
  underlying : GoErr
  recoverable : Bool
  suggestion : String
deriving Repr, DecidableEq

/-- `NewNetworkError` from errors.go. -/
def newNetworkError (op path : String) (e : GoErr) : SyncError :=
  ⟨.network, op, path, e.message, e, true,
   "Check network connectivity and try again"⟩

/-- `NewPermissionError` from errors.go. -/
def newPermissionError (op path : String) (e : GoErr) : SyncError :=
  ⟨.permission, op, path, e.message, e, false,
   "Check file permissions or run with elevated privileges"⟩

/-- `NewDiskError` from errors.go. -/
def newDiskError (op path : String) (e : GoErr) : SyncError :=
  ⟨.disk, op, path, e.message, e, false,
   "Free up disk space and try again"⟩

/-- `NewCancellationError` from errors.go. -/
def newCancellationError (op path : String) (e : GoErr) : SyncError :=
  ⟨.cancellation, op, path, e.message, e, false,
   "Operation was cancelled by user or timeout"⟩

/-- `ClassifySyncError` from errors.go, for a non-nil error. -/
def classifySyncError (op path : String) (e : GoErr) : SyncError :=
  let retryableErr := classifyError e
  if isNetworkError e then newNetworkError op path e
  else if isPermissionError e then newPermissionError op path e
  else if isDiskFullError e then newDiskError op path e
  else if isContextError e then newCancellationError op path e
  else ⟨.unknown, op, path, e.message, e, retryableErr.retryable,
        "Check logs for more details and try again"⟩

/-- `ErrorHandler` from errors.go: bounded error buffer. The mutex is not
modelled; all its operations are serialized here by construction. -/
structure ErrorHandler where
  errors : List SyncError
  maxErrors : Nat
deriving Repr, DecidableEq

/-- `NewErrorHandler` from errors.go: a non-positive configured maximum
falls back to the default limit 1000. -/
def newErrorHandler (maxErrors : Int) : ErrorHandler :=
  if maxErrors ≤ 0 then ⟨[], 1000⟩ else ⟨[], maxErrors.toNat⟩

/-- `ErrorHandler.AddError` from errors.go: when the buffer is full the
oldest entry is removed before the new one is appended. -/
def ErrorHandler.addError (eh : ErrorHandler) (e : SyncError) : ErrorHandler :=
  if eh.errors.length ≥ eh.maxErrors then
    ⟨eh.errors.drop 1 ++ [e], eh.maxErrors⟩
  else
    ⟨eh.errors ++ [e], eh.maxErrors⟩

/-- `ErrorHandler.GetErrorsByCategory` from errors.go. -/
def ErrorHandler.getErrorsByCategory (eh : ErrorHandler) (c : ErrorCategory) :
    List SyncError :=
  eh.errors.filter (fun e => decide (e.category = c))

/-- `ErrorHandler.GetSummary` from errors.go, read at one category: the
count the `{category → count}` summary map holds for `c`. -/
def ErrorHandler.getSummary (eh : ErrorHandler) (c : ErrorCategory) : Nat :=
  eh.errors.countP (fun e => decide (e.category = c))

/-- `FileInfo` from types.go. Size is the int64 byte count; the
modification time instant is modelled as nanoseconds since the epoch
(`time.Time.Equal`/`After`/`Sub` become `=`/`>`/`-` on this value). -/
structure FileInfo where
  path : String
  size : Int
  modTime : Int
  mode : Nat
  isDir : Bool
  checksum : String := ""
  checksumAlgo : String := ""
deriving Repr, DecidableEq

/-- The int64 counter fields of `SyncStats` from types.go. The
start/end/duration wall-clock fields are not modelled; no claim mentions
them. -/
structure SyncStats where
  filesScanned : Int := 0
  filesChanged : Int := 0
  filesCreated : Int := 0
  filesModified : Int := 0
  filesDeleted : Int := 0
  bytesTransferred : Int := 0
  conflictsFound : Int := 0
  conflictsResolved : Int := 0
  errorsEncountered : Int := 0
deriving Repr, DecidableEq

/-- `SyncOptions` from types.go (the timeout duration field is omitted;
no claim here involves it). -/
structure SyncOptions where
  dryRun : Bool := false
  force : Bool := false
  recursive : Bool := false
  preservePerms : Bool := false
  preserveTimes : Bool := false
  deleteExtraneous : Bool := false
  checksumVerify : Bool := false
  workers : Int := 0
  bufferSize : Int := 0
deriving Repr, DecidableEq

/-- The options `SyncEngine.Mirror` passes to `Sync` (part_000 lines
109-117). -/
def mirrorOpts : SyncOptions :=
  { dryRun := false, recursive := true, preservePerms := true,
    preserveTimes := true, deleteExtraneous := false,
    checksumVerify := true, workers := 0 }

/-- `ConflictType` from resolver.go. -/
inductive ConflictType where
  | sizesDiffer
  | modTimesDiffer
  | checksumsDiffer
  | bothModified
deriving Repr, DecidableEq

/-- `ConflictResolution` from resolver.go. -/
inductive ConflictResolution where
  | useSource
  | useDestination
  | skip
  | backupAndUseSource
  | merge
deriving Repr, DecidableEq

/-- `ConflictInfo` from resolver.go. -/
structure ConflictInfo where
  path : String
  sourceInfo : FileInfo
  destInfo : FileInfo
  conflict : ConflictType
deriving Repr, DecidableEq

/-- The configuration-derived fields of `ConflictResolver` from
resolver.go; the strategy is the configured string
(`config.ConflictStrategy` is a string type). -/
structure ConflictResolver where
  strategy : String
  backup : Bool
  backupDir : String
  interactive : Bool
deriving Repr, DecidableEq

/-- `ConflictResolver.resolveByNewest` from resolver.go: later
modification time wins; source wins a tie. -/
def resolveByNewest (c : ConflictInfo) : ConflictResolution :=
  if c.sourceInfo.modTime > c.destInfo.modTime then .useSource
  else if c.destInfo.modTime > c.sourceInfo.modTime then .useDestination
  else .useSource

/-- `time.Minute` in nanoseconds. -/
def minuteNs : Int := 60 * 1000000000

/-- `ConflictResolver.resolveSmart` from resolver.go: more than a minute
newer wins; else more than 1024 bytes larger wins; else newest. The Go
locals `timeDiff = src.ModTime.Sub(dst.ModTime)` and
`sizeDiff = src.Size - dst.Size` are inlined. -/
def resolveSmart (c : ConflictInfo) : ConflictResolution :=
  if c.sourceInfo.modTime - c.destInfo.modTime > minuteNs then .useSource
  else if c.sourceInfo.modTime - c.destInfo.modTime < -minuteNs then .useDestination
  else if c.sourceInfo.size - c.destInfo.size > 1024 then .useSource
  else if c.sourceInfo.size - c.destInfo.size < -1024 then .useDestination
  else resolveByNewest c

/-- `ConflictResolver.ResolveConflict` from resolver.go. The interactive
path reads stdin; it is parameterized here as `interactiveFn`, the value
`resolveInteractively` would return. The strategy switch compares the
configured string against the `config.Conflict*` constants, with
`resolveByNewest` as the default case. -/
def resolveConflict (interactiveFn : ConflictInfo → Except GoErr ConflictResolution)
    (cr : ConflictResolver) (c : ConflictInfo) : Except GoErr ConflictResolution :=
  if cr.interactive then interactiveFn c
  else if cr.strategy = "newest" then .ok (resolveByNewest c)
  else if cr.strategy = "source" then .ok .useSource
  else if cr.strategy = "destination" then .ok .useDestination
  else if cr.strategy = "smart" then .ok (resolveSmart c)
  else if cr.strategy = "skip" then .ok .skip
  else .ok (resolveByNewest c)

/-- `ConflictResolver.DetectConflict` from resolver.go, for two non-nil
records: first difference in size, then modification time, then
(both digests present) digest, wins. -/
def detectConflict (source dest : FileInfo) : Option ConflictInfo :=
  if source.size ≠ dest.size then
    some ⟨source.path, source, dest, .sizesDiffer⟩
  else if source.modTime ≠ dest.modTime then
    some ⟨source.path, source, dest, .modTimesDiffer⟩
  else if source.checksum ≠ "" ∧ dest.checksum ≠ "" ∧ source.checksum ≠ dest.checksum then
    some ⟨source.path, source, dest, .checksumsDiffer⟩
  else none

/-- `SyncEngine.needsSync` from part_000 lines 280-294. -/
def needsSync (source dest : FileInfo) (opts : SyncOptions) : Bool :=
  if source.size ≠ dest.size then true
  else if source.modTime ≠ dest.modTime then true
  else if opts.checksumVerify ∧ source.checksum ≠ "" ∧ dest.checksum ≠ "" then
    decide (source.checksum ≠ dest.checksum)
  else false

/-- The copier's configuration fields (`FileCopier` from part_002);
`NewFileCopier` defaults preservePerms and preserveTimes to true. -/
structure FileCopier where
  bufferSize : Int
  useZeroCopy : Bool
  preservePerms : Bool := true
  preserveTimes : Bool := true
deriving Repr, DecidableEq

/-- The outcome of each external step `copyRegularFile` performs, in
source order: `os.MkdirAll` on the destination's directory, `os.OpenFile`
of the destination (O_CREATE: this is where destination creation begins),
`os.Open` of the source, the content copy (zero-copy or buffered; `.ok`
carries the byte count written, `.error` the copy error), `dstFile.Sync()`,
`os.Chmod`, and `os.Chtimes`. `srcSize` is `srcInfo.Size()`. -/
structure CopyEnv where
  srcSize : Int
  mkdirErr : Option GoErr := none
  openDstErr : Option GoErr := none
  openSrcErr : Option GoErr := none
  copyOutcome : Except GoErr Int := .ok 0
  syncErr : Option GoErr := none
  chmodErr : Option GoErr := none
  chtimesErr : Option GoErr := none
deriving Repr

/-- Result of `copyRegularFile`: the returned error, whether destination
creation had begun (the destination open with O_CREATE succeeded), and
whether a file exists at the destination path afterwards (the destination
is assumed absent beforehand; `os.Remove(dst)` clears it). -/
structure CopyResult where
  err : Option GoErr
  creationBegan : Bool
  dstExists : Bool
deriving Repr, DecidableEq

/-- `FileCopier.copyRegularFile` from part_002 lines 51-118. The source
removes the destination only in the content-copy-error and byte-count
mismatch branches; the source-open, fsync, chmod and chtimes failure
branches return the wrapped error with the destination left in place. -/
def copyRegularFile (fc : FileCopier) (env : CopyEnv) : CopyResult :=
  match env.mkdirErr with
  | some e => ⟨some (.wrap "failed to create destination directory" e), false, false⟩
  | none =>
  match env.openDstErr with
  | some e => ⟨some (.wrap "failed to create destination file" e), false, false⟩
  | none =>
  match env.openSrcErr with
  | some e => ⟨some (.wrap "failed to open source file" e), true, true⟩
  | none =>
  match env.copyOutcome with
  | .error e => ⟨some (.wrap "failed to copy file content" e), true, false⟩
  | .ok bytesWritten =>
  if bytesWritten ≠ env.srcSize then
    ⟨some (.base "incomplete copy"), true, false⟩
  else
  match env.syncErr with
  | some e => ⟨some (.wrap "failed to sync destination file" e), true, true⟩
  | none =>
  match (if fc.preservePerms then env.chmodErr else none) with
  | some e => ⟨some (.wrap "failed to set file permissions" e), true, true⟩
  | none =>
  match (if fc.preserveTimes then env.chtimesErr else none) with
  | some e => ⟨some (.wrap "failed to set file times" e), true, true⟩
  | none => ⟨none, true, true⟩

/-- The hash primitives the scanner dispatches to (`blake3.New()` and
`sha256.New()` followed by hex encoding), kept abstract: the claims here
depend only on which primitive each algorithm tag selects. File contents
are byte lists. -/
structure HashFns where
  blake3Hex : List Nat → String
  sha256Hex : List Nat → String

/-- A value of the scanner's checksum cache (`cacheEntry` from
scanner.go): digest, modification time in integer seconds, size. -/
structure CacheEntry where
  checksum : String
  modTime : Int
  size : Int
deriving Repr, DecidableEq

/-- `FileScanner` from scanner.go: concurrency bound, selected digest
algorithm tag, and the path-keyed digest cache. -/
structure FileScanner where
  maxConcurrency : Int
  checksumAlgo : String
  cache : List (String × CacheEntry)
deriving Repr, DecidableEq

/-- `NewFileScanner` from scanner.go: non-positive concurrency becomes
`2 × GOMAXPROCS`; the digest algorithm defaults to "blake3"; the cache
starts empty. -/
def newFileScanner (maxConcurrency gomaxprocs : Int) : FileScanner :=
  if maxConcurrency ≤ 0 then ⟨gomaxprocs * 2, "blake3", []⟩
  else ⟨maxConcurrency, "blake3", []⟩

/-- `FileScanner.SetChecksumAlgorithm` from scanner.go. -/
def FileScanner.setChecksumAlgorithm (s : FileScanner) (algo : String) : FileScanner :=
  { s with checksumAlgo := algo }

/-- `time.Time.Unix()`: nanoseconds to whole seconds. -/
def unixSeconds (ns : Int) : Int := ns / 1000000000

/-- `FileScanner.calculateChecksum` from scanner.go lines 186-215:
"blake3" and "sha256" select the matching hash; the "md5" case of the
source also runs `sha256.New()`; any other tag is the
"unsupported checksum algorithm" failure. `readOutcome` is what
`io.Copy(hasher, reader)` streams (`.error` for a read failure). -/
def calculateChecksum (h : HashFns) (checksumAlgo : String)
    (readOutcome : Except GoErr (List Nat)) : Except GoErr String :=
  if checksumAlgo = "blake3" then
    match readOutcome with
    | .error e => .error e
    | .ok data => .ok (h.blake3Hex data)
  else if checksumAlgo = "sha256" then
    match readOutcome with
    | .error e => .error e
    | .ok data => .ok (h.sha256Hex data)
  else if checksumAlgo = "md5" then
    match readOutcome with
    | .error e => .error e
    | .ok data => .ok (h.sha256Hex data)
  else
    .error (.base ("unsupported checksum algorithm: " ++ checksumAlgo))

/-- Go map lookup over an insertion-ordered association list: the most
recent binding for the key wins. -/
def lookupCache (cache : List (String × CacheEntry)) (key : String) :
    Option CacheEntry :=
  match cache.reverse.find? (fun p => p.1 = key) with
  | some p => some p.2
  | none => none

/-- `FileScanner.getChecksum` from scanner.go lines 145-184: a cache entry
whose stored (seconds, size) match the record is reused; otherwise the
file is opened (`openErr` is that outcome) and hashed, errors wrapped as
in the source. The returned scanner carries the updated cache. -/
def getChecksum (h : HashFns) (s : FileScanner) (path : String) (info : FileInfo)
    (openErr : Option GoErr) (readOutcome : Except GoErr (List Nat)) :
    Except GoErr String × FileScanner :=
  let cached :=
    match lookupCache s.cache path with
    | some entry =>
        if entry.modTime = unixSeconds info.modTime ∧ entry.size = info.size then
          some entry.checksum
        else none
    | none => none
  match cached with
  | some c => (.ok c, s)
  | none =>
    match openErr with
    | some e => (.error (.wrap ("failed to open file " ++ path) e), s)
    | none =>
      match calculateChecksum h s.checksumAlgo readOutcome with
      | .error e =>
          (.error (.wrap ("failed to calculate checksum for " ++ path) e), s)
      | .ok checksum =>
          (.ok checksum,
           { s with cache :=
               s.cache ++ [(path, ⟨checksum, unixSeconds info.modTime, info.size⟩)] })

/-- `FileScanner.getFileInfo` from scanner.go lines 120-143, after a
successful stat producing `base` (path, size, mtime, mode, is-dir, no
digest): non-directories of positive size get the digest and the
algorithm tag iff the digest step succeeds; a digest failure leaves the
record without either and is not an error. -/
def getFileInfo (h : HashFns) (s : FileScanner) (base : FileInfo)
    (openErr : Option GoErr) (readOutcome : Except GoErr (List Nat)) :
    FileInfo × FileScanner :=
  if base.isDir = false ∧ base.size > 0 then
    match getChecksum h s base.path base openErr readOutcome with
    | (.ok checksum, s') =>
        ({ base with checksum := checksum, checksumAlgo := s.checksumAlgo }, s')
    | (.error _, s') => (base, s')
  else (base, s)

/-- The error `FileScanner.ScanWithFilter` returns when the directory walk
fails (scanner.go lines 107-109): the walk error wrapped with
`fmt.Errorf("failed to scan directory %s: %w", path, err)`. -/
def scanWrapErr (path : String) (walkErr : GoErr) : GoErr :=
  .wrap ("failed to scan directory " ++ path) walkErr

/-- The walk error `filepath.WalkDir` yields for a missing root: the
`*os.PathError` of `os.Lstat` with ENOENT, passed to the callback and
returned unchanged. -/
def lstatNotFoundErr (root : String) : GoErr :=
  .pathError "lstat" root (.errno 2)

/-- Per-file environment for one `syncFile` call: the outcome of each
external step it can reach, in source order. `relErr` is a
`filepath.Rel` failure; `resolution` is what `resolver.ResolveConflict`
returns (covering every configured strategy, the interactive prompt
included); `backupErr` is the `CreateBackup` outcome; `mkdirErr` the
`os.MkdirAll` outcome for a directory entry; `copyErr` the terminal
outcome of the retry-wrapped `copier.CopyFile` (`none` = success). -/
structure FileEnv where
  relErr : Option GoErr := none
  resolution : Except GoErr ConflictResolution := .ok .useSource
  backupErr : Option GoErr := none
  mkdirErr : Option GoErr := none
  copyErr : Option GoErr := none

/-- Orchestrator state threaded through the per-file work: the counters,
the engine's error aggregator, and an instrumentation count of how many
times the copier was invoked (used to state "performs zero copies"). -/
structure SyncState where
  stats : SyncStats
  errorHandler : ErrorHandler
  copierCalls : Nat

/-- The tail of `SyncEngine.syncFile` (part_000 lines 236-277), reached
once `needsSync` is settled affirmatively: dry-run counting, directory
creation, or the retry-wrapped copy with its counter and aggregator
updates. `ex` is the `exists` flag of the destination-map lookup. -/
def syncFileApply (opts : SyncOptions) (sourceFile : FileInfo) (ex : Bool)
    (env : FileEnv) (st : SyncState) : SyncState × Option GoErr :=
  if opts.dryRun then
    if ex then
      ({ st with stats.filesModified := st.stats.filesModified + 1 }, none)
    else
      ({ st with stats.filesCreated := st.stats.filesCreated + 1 }, none)
  else if sourceFile.isDir then
    match env.mkdirErr with
    | some e => (st, some (.wrap ("failed to create directory") e))
    | none => ({ st with stats.filesCreated := st.stats.filesCreated + 1 }, none)
  else
    let st := { st with copierCalls := st.copierCalls + 1 }
    match env.copyErr with
    | some e =>
        let syncErr := classifySyncError "copy" sourceFile.path e
        let st := { st with
          errorHandler := st.errorHandler.addError syncErr,
          stats.errorsEncountered := st.stats.errorsEncountered + 1 }
        (st, some (.wrap ("failed to copy file " ++ sourceFile.path ++ " after retries") e))
    | none =>
        ({ st with
            stats.bytesTransferred := st.stats.bytesTransferred + sourceFile.size,
            stats.filesModified :=
              st.stats.filesModified + (if ex then 1 else 0),
            stats.filesCreated :=
              st.stats.filesCreated + (if ex then 0 else 1),
            stats.filesChanged := st.stats.filesChanged + 1 }, none)

/-- `SyncEngine.syncFile` from part_000 lines 191-278. `destLookup` is the
destination-map lookup for the entry's relative path. When the entry
exists there and `needsSync` holds, the conflict path runs: found-counter,
resolution, and its switch (Skip and UseDestination return; a backup
failure aborts the file; BackupAndUseSource and UseSource bump the
resolved-counter and proceed; Merge has no case and falls through). -/
def syncFileModel (opts : SyncOptions) (sourceFile : FileInfo)
    (destLookup : Option FileInfo) (env : FileEnv) (st : SyncState) :
    SyncState × Option GoErr :=
  match env.relErr with
  | some e => (st, some (.wrap "failed to get relative path" e))
  | none =>
  match destLookup with
  | some destFile =>
    if needsSync sourceFile destFile opts then
      match detectConflict sourceFile destFile with
      | some _ =>
        let st := { st with stats.conflictsFound := st.stats.conflictsFound + 1 }
        match env.resolution with
        | .error e =>
            (st, some (.wrap ("failed to resolve conflict for " ++ sourceFile.path) e))
        | .ok .skip => (st, none)
        | .ok .useDestination => (st, none)
        | .ok .backupAndUseSource =>
          match env.backupErr with
          | some e => (st, some (.wrap "failed to create backup" e))
          | none =>
              syncFileApply opts sourceFile true env
                { st with stats.conflictsResolved := st.stats.conflictsResolved + 1 }
        | .ok .useSource =>
            syncFileApply opts sourceFile true env
              { st with stats.conflictsResolved := st.stats.conflictsResolved + 1 }
        | .ok .merge => syncFileApply opts sourceFile true env st
      | none => syncFileApply opts sourceFile true env st
    else (st, none)
  | none => syncFileApply opts sourceFile false env st

/-- One iteration of the dispatch loop in `SyncEngine.Sync` (part_000
lines 160-181): run `syncFile`; when it returns an error the dispatcher
increments `ErrorsEncountered` (in addition to any increment `syncFile`
already performed). The per-file goroutines only touch the atomic
counters and the aggregator, so the final state of the concurrent run
equals this sequential fold for some order; the claims proved below are
order-independent. `lookupDest` is the Go map lookup `destMap[relPath]`:
the most recent binding for the key wins. -/
def lookupDest (destMap : List (String × FileInfo)) (relPath : String) :
    Option FileInfo :=
  match destMap.reverse.find? (fun p => p.1 = relPath) with
  | some p => some p.2
  | none => none

/-- The dispatch-loop body itself (part_000 lines 169-180): run
`syncFile`; on an error result the dispatcher increments
`ErrorsEncountered` once more. -/
def processFile (opts : SyncOptions) (destMap : List (String × FileInfo))
    (rel : String → String → String) (source : String)
    (st : SyncState) (task : FileInfo × FileEnv) : SyncState :=
  match syncFileModel opts task.1 (lookupDest destMap (rel source task.1.path)) task.2 st with
  | (st', some _) =>
      { st' with stats.errorsEncountered := st'.stats.errorsEncountered + 1 }
  | (st', none) => st'

/-- The destination map built in `SyncEngine.Sync` (part_000 lines
146-151): each destination record keyed by its path relative to the
destination root (`rel` stands for `filepath.Rel`; later entries shadow
earlier ones on lookup, as for a Go map). -/
def buildDestMap (rel : String → String → String) (destination : String)
    (destFiles : List FileInfo) : List (String × FileInfo) :=
  destFiles.map (fun f => (rel destination f.path, f))

/-- The state `Sync` starts the dispatch loop with: counters reset, then
`FilesScanned` set to the source-scan entry count; the engine's aggregator
(capacity 1000 from `NewSyncEngine`); no copies yet. -/
def initState (n : Nat) : SyncState :=
  ⟨{ filesScanned := (n : Int) }, ⟨[], 1000⟩, 0⟩

/-- The dispatch loop of `SyncEngine.Sync` over the scanned source
entries, each paired with its per-file environment. -/
def runTasks (opts : SyncOptions) (rel : String → String → String)
    (source : String) (destMap : List (String × FileInfo))
    (tasks : List (FileInfo × FileEnv)) (st : SyncState) : SyncState :=
  tasks.foldl (processFile opts destMap rel source) st

/-- `SyncEngine.Sync` from part_000 lines 125-189. `srcScan` and `dstScan`
are the two scanner results (the source entries paired with their
per-file environments). A source-scan failure aborts; a destination-scan
failure aborts unless `os.IsNotExist` accepts it, in which case the
destination set is empty; then the per-file work runs and the operation
returns the final counters with no error. -/
def syncModel (opts : SyncOptions) (source destination : String)
    (rel : String → String → String)
    (srcScan : Except GoErr (List (FileInfo × FileEnv)))
    (dstScan : Except GoErr (List FileInfo)) : SyncState × Option GoErr :=
  match srcScan with
  | .error e => (initState 0, some (.wrap "failed to scan source directory" e))
  | .ok tasks =>
    let st0 := initState tasks.length
    match dstScan with
    | .error e =>
        if osIsNotExist e = false then
          (st0, some (.wrap "failed to scan destination directory" e))
        else
          (runTasks opts rel source (buildDestMap rel destination []) tasks st0, none)
    | .ok destFiles =>
        (runTasks opts rel source (buildDestMap rel destination destFiles) tasks st0, none)

/-- Claim C8: under the Smart strategy, a modification-time difference
exceeding 60 seconds picks the newer side; otherwise a size difference
exceeding 1024 bytes picks the larger side; otherwise the Newest rule
applies. In particular a 30-second time difference with the source 2 KiB
larger yields UseSource (see the witness). -/
theorem claim_C8 (c : ConflictInfo) :
    (c.sourceInfo.modTime - c.destInfo.modTime > minuteNs →
      resolveSmart c = .useSource) ∧
    (c.destInfo.modTime - c.sourceInfo.modTime > minuteNs →
      resolveSmart c = .useDestination) ∧
    (|c.sourceInfo.modTime - c.destInfo.modTime| ≤ minuteNs →
      c.sourceInfo.size - c.destInfo.size > 1024 →
      resolveSmart c = .useSource) ∧
    (|c.sourceInfo.modTime - c.destInfo.modTime| ≤ minuteNs →
      c.destInfo.size - c.sourceInfo.size > 1024 →
      resolveSmart c = .useDestination) ∧
    (|c.sourceInfo.modTime - c.destInfo.modTime| ≤ minuteNs →
      |c.sourceInfo.size - c.destInfo.size| ≤ 1024 →
      resolveSmart c = resolveByNewest c) := by
  unfold resolveSmart minuteNs
  constructor
  · intro h
    rw [if_pos h]
  constructor
  · intro h
    rw [if_neg (by omega), if_pos (by omega)]
  constructor
  · intro h1 h2
    rw [abs_le] at h1
    rw [if_neg (by omega), if_neg (by omega), if_pos (by omega)]
  constructor
  · intro h1 h2
    rw [abs_le] at h1
    rw [if_neg (by omega), if_neg (by omega), if_neg (by omega),
      if_pos (by omega)]
  · intro h1 h2
    rw [abs_le] at h1
    rw [abs_le] at h2
    rw [if_neg (by omega), if_neg (by omega), if_neg (by omega),
      if_neg (by omega)]

/-- The "Δtime = 30 s, Δsize = 2 KiB (source larger)" conflict of the
spec's boundary behavior 12. -/
def smartConflictExample : ConflictInfo :=
  ⟨"x.txt",
   { path := "/a/x.txt", size := 3072, modTime := 30000000000,
     mode := 420, isDir := false },
   { path := "/b/x.txt", size := 1024, modTime := 0,
     mode := 420, isDir := false },
   .modTimesDiffer⟩

/-- Witness for claim C8 at the spec's own test point: 30 s newer and
2 KiB larger on the source side resolves to UseSource. -/
theorem claim_C8_witness :
    resolveSmart smartConflictExample = .useSource :=
  (claim_C8 smartConflictExample).2.2.1 (by decide) (by decide)

/-- Claim C10: with interactive mode off and a strategy string outside
{newest, source, destination, smart, skip}, `ResolveConflict` falls to the
default case: the Newest decision, with no error. -/
theorem claim_C10 (interactiveFn : ConflictInfo → Except GoErr ConflictResolution)
    (cr : ConflictResolver) (c : ConflictInfo)
    (hInter : cr.interactive = false)
    (hStrat : cr.strategy ∉
      (["newest", "source", "destination", "smart", "skip"] : List String)) :
    resolveConflict interactiveFn cr c = .ok (resolveByNewest c) := by
  simp only [List.mem_cons, List.not_mem_nil, or_false, not_or] at hStrat
  obtain ⟨h1, h2, h3, h4, h5⟩ := hStrat
  simp [resolveConflict, hInter, h1, h2, h3, h4, h5]

/-- Witness for claim C10: the empty strategy string with interactive off
resolves exactly as Newest would. -/
theorem claim_C10_witness :
    resolveConflict (fun _ => .ok .skip)
        ⟨"", false, ".relay-backups", false⟩ smartConflictExample =
      .ok (resolveByNewest smartConflictExample) :=
  claim_C10 (fun _ => .ok .skip) ⟨"", false, ".relay-backups", false⟩
    smartConflictExample rfl (by decide)

/-- A cancellation error whose wrap text mentions a network pattern:
`fmt.Errorf("copy timeout: %w", context.Canceled)`. -/
def cancelTimeoutErr : GoErr := .wrap "copy timeout" .canceled

/-- Counterexample to claim C6: this error wraps `context.Canceled`, yet
`ClassifyError` reaches the network-pattern check first ("timeout" occurs
in the message) and returns retryable with `fatal = false`, not the fatal
classification the claim requires for every cancellation error. -/
theorem claim_C6_counterexample :
    cancelTimeoutErr.is .canceled = true ∧
    isContextError cancelTimeoutErr = true ∧
    classifyError cancelTimeoutErr = newRetryableError cancelTimeoutErr true ∧
    (classifyError cancelTimeoutErr).fatal = false := by
  decide

/-- Claim C6 as amended: an error wrapping `context.Canceled` or
`context.DeadlineExceeded` is classified fatal provided its message
matches no network, permission, or disk-full pattern; those three checks
run first and win otherwise. -/
theorem claim_C6_amended (e : GoErr)
    (hctx : isContextError e = true)
    (hnet : isNetworkError e = false)
    (hperm : isPermissionError e = false)
    (hdisk : isDiskFullError e = false) :
    classifyError e = ⟨e, false, true⟩ := by
  simp [classifyError, hnet, hperm, hdisk, hctx, newFatalError]

/-- Witness for the amended claim C6: the bare `context.Canceled` error is
classified fatal. -/
theorem claim_C6_amended_witness :
    classifyError .canceled = ⟨.canceled, false, true⟩ :=
  claim_C6_amended .canceled (by decide) (by decide) (by decide) (by decide)

/-- `AddError` keeps the configured capacity. -/
theorem addError_maxErrors (eh : ErrorHandler) (e : SyncError) :
    (eh.addError e).maxErrors = eh.maxErrors := by
  unfold ErrorHandler.addError
  split <;> rfl

/-- One `AddError` preserves the buffer-size bound when the capacity is
at least one. -/
theorem addError_length_le (eh : ErrorHandler) (e : SyncError)
    (hmax : 1 ≤ eh.maxErrors) (h : eh.errors.length ≤ eh.maxErrors) :
    (eh.addError e).errors.length ≤ eh.maxErrors := by
  unfold ErrorHandler.addError
  split
  · next hfull =>
    simp only [List.length_append, List.length_drop, List.length_cons,
      List.length_nil]
    omega
  · next hroom =>
    simp only [List.length_append, List.length_cons, List.length_nil]
    omega

/-- Every sequence of `AddError` calls keeps the buffer within the bound. -/
theorem foldl_addError_length_le (adds : List SyncError) (eh : ErrorHandler)
    (hmax : 1 ≤ eh.maxErrors) (h : eh.errors.length ≤ eh.maxErrors) :
    (adds.foldl ErrorHandler.addError eh).errors.length ≤ eh.maxErrors := by
  induction adds generalizing eh with
  | nil => simpa using h
  | cons a rest ih =>
    have hmax' : 1 ≤ (eh.addError a).maxErrors := by
      rw [addError_maxErrors]; exact hmax
    have h' : (eh.addError a).errors.length ≤ (eh.addError a).maxErrors := by
      rw [addError_maxErrors]; exact addError_length_le eh a hmax h
    have := ih (eh.addError a) hmax' h'
    rw [addError_maxErrors] at this
    simpa using this

/-- Claim C9: the aggregator's capacity is the configured maximum, 1000
when the configured value is not at least 1, and is never exceeded by any
sequence of adds; an add on a full buffer evicts the oldest entry
first-in-first-out and appends the new one; and the by-category summary
counts exactly the errors currently stored (it equals the length of the
category filter of the stored list). -/
theorem claim_C9 :
    (∀ v : Int, (newErrorHandler v).maxErrors =
        (if v ≤ 0 then 1000 else v.toNat) ∧
      1 ≤ (newErrorHandler v).maxErrors) ∧
    (∀ (v : Int) (adds : List SyncError),
      (adds.foldl ErrorHandler.addError (newErrorHandler v)).errors.length ≤
        (newErrorHandler v).maxErrors) ∧
    (∀ (eh : ErrorHandler) (e : SyncError),
      (eh.errors.length ≥ eh.maxErrors →
        (eh.addError e).errors = eh.errors.drop 1 ++ [e]) ∧
      (eh.errors.length < eh.maxErrors →
        (eh.addError e).errors = eh.errors ++ [e])) ∧
    (∀ (eh : ErrorHandler) (c : ErrorCategory),
      eh.getSummary c = (eh.getErrorsByCategory c).length) := by
  refine ⟨fun v => ⟨?_, ?_⟩, fun v adds => ?_, fun eh e => ⟨fun hfull => ?_, fun hroom => ?_⟩,
    fun eh c => ?_⟩
  · unfold newErrorHandler
    split <;> rfl
  · unfold newErrorHandler
    split <;> simp_all <;> omega
  · refine foldl_addError_length_le adds (newErrorHandler v) ?_ ?_
    · unfold newErrorHandler
      split <;> simp_all <;> omega
    · unfold newErrorHandler
      split <;> simp
  · unfold ErrorHandler.addError
    rw [if_pos hfull]
  · unfold ErrorHandler.addError
    rw [if_neg (by omega)]
  · unfold ErrorHandler.getSummary ErrorHandler.getErrorsByCategory
    exact List.countP_eq_length_filter _ _

/-- Two sample classified errors used by the C9 witness. -/
def sampleErrA : SyncError := newPermissionError "copy" "/src/a" (.errno 13)

/-- Second sample classified error used by the C9 witness. -/
def sampleErrB : SyncError := newNetworkError "copy" "/src/b" (.base "timeout")

/-- Witness for claim C9: a capacity-1 aggregator holding one error is
full, and an add evicts the stored error FIFO and appends the new one. -/
theorem claim_C9_witness :
    (ErrorHandler.mk [sampleErrA] 1).errors.length ≥
        (ErrorHandler.mk [sampleErrA] 1).maxErrors ∧
    ((ErrorHandler.mk [sampleErrA] 1).addError sampleErrB).errors =
      ([sampleErrA].drop 1) ++ [sampleErrB] :=
  ⟨by decide,
   ((claim_C9.2.2.1 (ErrorHandler.mk [sampleErrA] 1) sampleErrB).1 (by decide))⟩

/-- The regular-file record the C7 evaluation scans. -/
def md5File : FileInfo :=
  { path := "/src/a.txt", size := 5, modTime := 1000000000,
    mode := 420, isDir := false }

/-- Claim C7 (evaluation at the failing input): the scanner's default tag
is "blake3", but the tag "md5" does NOT make the digest step fail — the
source's "md5" case runs SHA-256, so the record comes back with that
digest and with the algorithm tag "md5", for every hash implementation
and every file content; a genuinely unknown tag ("crc32") does fail the
digest step and the record keeps no digest and no tag. -/
theorem claim_C7_md5_eval (h : HashFns) (d : List Nat) :
    (newFileScanner 0 4).checksumAlgo = "blake3" ∧
    calculateChecksum h "md5" (.ok d) = .ok (h.sha256Hex d) ∧
    (getFileInfo h ((newFileScanner 0 4).setChecksumAlgorithm "md5") md5File
        none (.ok d)).1.checksum = h.sha256Hex d ∧
    (getFileInfo h ((newFileScanner 0 4).setChecksumAlgorithm "md5") md5File
        none (.ok d)).1.checksumAlgo = "md5" ∧
    calculateChecksum h "crc32" (.ok d) =
      .error (.base "unsupported checksum algorithm: crc32") ∧
    (getFileInfo h ((newFileScanner 0 4).setChecksumAlgorithm "crc32") md5File
        none (.ok d)).1.checksum = "" ∧
    (getFileInfo h ((newFileScanner 0 4).setChecksumAlgorithm "crc32") md5File
        none (.ok d)).1.checksumAlgo = "" := by
  refine ⟨rfl, rfl, ?_, ?_, rfl, ?_, ?_⟩ <;>
    simp [getFileInfo, getChecksum, lookupCache, calculateChecksum,
      newFileScanner, FileScanner.setChecksumAlgorithm, md5File]

/-- The copier `NewFileCopier(0, false)` builds (buffered, preserving). -/
def defaultCopier : FileCopier := ⟨65536, false, true, true⟩

/-- A copy call in which the destination was created (mkdir and the
destination O_CREATE open succeeded) and then opening the source failed
with EACCES. -/
def srcOpenFailEnv : CopyEnv :=
  { srcSize := 5,
    openSrcErr := some (.pathError "open" "/src/a.txt" (.errno 13)) }

/-- Counterexample to claim C3: when opening the source fails after
destination creation has begun, `copyRegularFile` returns the wrapped
error but does NOT remove the destination — a file remains at the
destination path, contradicting "no file exists at the destination path
on completion" for every post-creation failure. -/
theorem claim_C3_counterexample :
    (copyRegularFile defaultCopier srcOpenFailEnv).err =
      some (.wrap "failed to open source file"
        (.pathError "open" "/src/a.txt" (.errno 13))) ∧
    (copyRegularFile defaultCopier srcOpenFailEnv).creationBegan = true ∧
    (copyRegularFile defaultCopier srcOpenFailEnv).dstExists = true := by
  refine ⟨rfl, rfl, rfl⟩

/-- Claim C3 as amended: among failures after destination creation has
begun, only a content-copy error and a byte-count mismatch remove the
destination (the former wrapping the copy error, the latter a fresh
"incomplete copy" error with no underlying cause); a source-open, fsync,
chmod or chtimes failure returns an error wrapping the underlying cause
with the destination file left in place; and whenever the destination is
gone after creation began, the error is one of those two removal cases. -/
theorem claim_C3_amended (fc : FileCopier) (env : CopyEnv)
    (hm : env.mkdirErr = none) (hod : env.openDstErr = none) :
    (∀ e, env.openSrcErr = some e →
      copyRegularFile fc env =
        ⟨some (.wrap "failed to open source file" e), true, true⟩) ∧
    (env.openSrcErr = none → ∀ e, env.copyOutcome = .error e →
      copyRegularFile fc env =
        ⟨some (.wrap "failed to copy file content" e), true, false⟩) ∧
    (env.openSrcErr = none → ∀ b, env.copyOutcome = .ok b → b ≠ env.srcSize →
      copyRegularFile fc env = ⟨some (.base "incomplete copy"), true, false⟩) ∧
    (env.openSrcErr = none → ∀ b, env.copyOutcome = .ok b → b = env.srcSize →
      ∀ e, env.syncErr = some e →
      copyRegularFile fc env =
        ⟨some (.wrap "failed to sync destination file" e), true, true⟩) ∧
    ((copyRegularFile fc env).creationBegan = true →
      (copyRegularFile fc env).dstExists = false →
      (∃ e, (copyRegularFile fc env).err =
          some (.wrap "failed to copy file content" e)) ∨
      (copyRegularFile fc env).err = some (.base "incomplete copy")) := by
  unfold copyRegularFile
  rw [hm, hod]
  refine ⟨fun e he => ?_, fun hos e hco => ?_, fun hos b hco hb => ?_,
    fun hos b hco hb e hse => ?_, ?_⟩
  · rw [he]
  · rw [hos, hco]
  · rw [hos, hco]
    dsimp only
    rw [if_pos hb]
  · rw [hos, hco]
    dsimp only
    rw [if_neg (not_not_intro hb), hse]
  · cases hos : env.openSrcErr with
    | some e =>
      intro _ h2
      simp at h2
    | none =>
      cases hco : env.copyOutcome with
      | error e =>
        intro _ _
        exact Or.inl ⟨e, rfl⟩
      | ok b =>
        dsimp only
        by_cases hb : b ≠ env.srcSize
        · rw [if_pos hb]
          intro _ _
          exact Or.inr rfl
        · rw [if_neg hb]
          cases hse : env.syncErr with
          | some e =>
            intro _ h2
            simp at h2
          | none =>
            cases hch : (if fc.preservePerms then env.chmodErr else none) with
            | some e =>
              intro _ h2
              simp at h2
            | none =>
              cases hct : (if fc.preserveTimes then env.chtimesErr else none) with
              | some e =>
                intro _ h2
                simp at h2
              | none =>
                intro _ h2
                simp at h2

/-- Witness for the amended claim C3 at a concrete content-copy failure:
the destination is removed and the error wraps the copy error. -/
theorem claim_C3_amended_witness :
    copyRegularFile defaultCopier
        { srcSize := 5, copyOutcome := .error (.base "read error") } =
      ⟨some (.wrap "failed to copy file content" (.base "read error")),
        true, false⟩ :=
  (claim_C3_amended defaultCopier
      { srcSize := 5, copyOutcome := .error (.base "read error") }
      rfl rfl).2.1 rfl (.base "read error") rfl

/-- The source entry used in the C4 evaluation run. -/
def c4File : FileInfo :=
  { path := "/src/a.txt", size := 5, modTime := 1000000000,
    mode := 420, isDir := false }

/-- Claim C4 (evaluation at the failing input): every error
`ScanWithFilter` returns is the walk error wrapped by `fmt.Errorf`, and
`os.IsNotExist` does not unwrap such wrapping, so it rejects EVERY
scanner error — the raw lstat ENOENT `*os.PathError` itself would be
accepted, but never reaches the check. Consequently a `Sync` whose
destination root is missing returns the "failed to scan destination
directory" failure instead of proceeding with an empty destination set. -/
theorem claim_C4_dead_branch :
    (∀ (p : String) (e : GoErr), osIsNotExist (scanWrapErr p e) = false) ∧
    osIsNotExist (lstatNotFoundErr "/dst") = true ∧
    (syncModel mirrorOpts "/src" "/dst" (fun _ p => p) (.ok [(c4File, {})])
        (.error (scanWrapErr "/dst" (lstatNotFoundErr "/dst")))).2 =
      some (.wrap "failed to scan destination directory"
        (scanWrapErr "/dst" (lstatNotFoundErr "/dst"))) ∧
    (syncModel mirrorOpts "/src" "/dst" (fun _ p => p) (.ok [(c4File, {})])
        (.error (scanWrapErr "/dst" (lstatNotFoundErr "/dst")))).1.stats.filesCreated = 0 := by
  refine ⟨fun p e => rfl, rfl, rfl, rfl⟩

/-- The source files of scenario S5: ten regular files of five bytes. -/
def s5File (i : Nat) : FileInfo :=
  { path := "/src/f" ++ toString i, size := 5, modTime := 1000000000,
    mode := 420, isDir := false }

/-- The terminal error the retry-wrapped copy of the third file returns:
EACCES classified non-retryable after the first attempt. -/
def s5CopyErr : GoErr :=
  .wrap "non-retryable error on attempt 1"
    (.pathError "open" "/src/f3" (.errno 13))

/-- Scenario S5's dispatch list: ten files, the third failing terminally
with permission denied, the rest copying successfully. -/
def s5Tasks : List (FileInfo × FileEnv) :=
  [(s5File 1, {}), (s5File 2, {}), (s5File 3, { copyErr := some s5CopyErr }),
   (s5File 4, {}), (s5File 5, {}), (s5File 6, {}), (s5File 7, {}),
   (s5File 8, {}), (s5File 9, {}), (s5File 10, {})]

/-- The S5 mirror run: empty destination, ten source files, one terminal
permission failure. -/
def s5Run : SyncState × Option GoErr :=
  syncModel mirrorOpts "/src" "/dst" (fun _ p => p) (.ok s5Tasks) (.ok [])

/-- Claim C1 (evaluation at the failing input): in scenario S5 the
operation does complete (no orchestrator error), nine files are copied,
and the aggregator holds exactly one Permission error — but the
`ErrorsEncountered` counter ends at 2, not 1: `syncFile` increments it
when the retry-wrapped copy fails terminally, and the dispatch loop
increments it again when `syncFile` returns that error. -/
theorem claim_C1_s5_eval :
    s5Run.2 = none ∧
    s5Run.1.stats.filesScanned = 10 ∧
    s5Run.1.stats.filesCreated = 9 ∧
    s5Run.1.stats.filesModified = 0 ∧
    s5Run.1.stats.filesChanged = 9 ∧
    s5Run.1.stats.errorsEncountered = 2 ∧
    s5Run.1.errorHandler.errors.map (fun e => e.category) =
      [ErrorCategory.permission] := by
  decide

/-- The dry-run variant of the mirror options. -/
def dryRunOpts : SyncOptions := { mirrorOpts with dryRun := true }

/-- A one-file dry run against an empty destination. -/
def c2Run : SyncState × Option GoErr :=
  syncModel dryRunOpts "/src" "/dst" (fun _ p => p)
    (.ok [(s5File 1, {})]) (.ok [])

/-- Counterexample to claim C2: in dry-run mode `syncFile` increments
`FilesCreated` (or `FilesModified`) and returns without ever touching
`FilesChanged`, so after one dry-run file the counters read
created = 1, changed = 0 and `created + modified ≤ changed` fails. -/
theorem claim_C2_counterexample :
    c2Run.1.stats.filesCreated = 1 ∧
    c2Run.1.stats.filesModified = 0 ∧
    c2Run.1.stats.filesChanged = 0 ∧
    ¬(c2Run.1.stats.filesCreated + c2Run.1.stats.filesModified ≤
        c2Run.1.stats.filesChanged) := by
  decide

/-- Helper: the effect of the `syncFile` tail on the created/modified/
changed/scanned counters for a non-dry-run, non-directory entry: the
difference `(created + modified) - changed` is preserved, `changed` grows
by at most one, and `scanned` is untouched. -/
theorem syncFileApply_counts (opts : SyncOptions) (f : FileInfo) (ex : Bool)
    (env : FileEnv) (st : SyncState)
    (hdry : opts.dryRun = false) (hdir : f.isDir = false) :
    ((syncFileApply opts f ex env st).1.stats.filesCreated +
        (syncFileApply opts f ex env st).1.stats.filesModified) -
        (syncFileApply opts f ex env st).1.stats.filesChanged =
      (st.stats.filesCreated + st.stats.filesModified) -
        st.stats.filesChanged ∧
    (syncFileApply opts f ex env st).1.stats.filesChanged ≤
      st.stats.filesChanged + 1 ∧
    (syncFileApply opts f ex env st).1.stats.filesScanned =
      st.stats.filesScanned := by
  unfold syncFileApply
  rw [hdry, hdir]
  simp only [Bool.false_eq_true, if_false]
  cases env.copyErr <;> cases ex <;> refine ⟨?_, ?_, ?_⟩ <;>
    (try simp) <;> omega

/-- Helper: `syncFile` as a whole has the same counter effect; the
conflict branches only touch the conflict counters or return early. -/
theorem syncFileModel_counts (opts : SyncOptions) (f : FileInfo)
    (dl : Option FileInfo) (env : FileEnv) (st : SyncState)
    (hdry : opts.dryRun = false) (hdir : f.isDir = false) :
    ((syncFileModel opts f dl env st).1.stats.filesCreated +
        (syncFileModel opts f dl env st).1.stats.filesModified) -
        (syncFileModel opts f dl env st).1.stats.filesChanged =
      (st.stats.filesCreated + st.stats.filesModified) -
        st.stats.filesChanged ∧
    (syncFileModel opts f dl env st).1.stats.filesChanged ≤
      st.stats.filesChanged + 1 ∧
    (syncFileModel opts f dl env st).1.stats.filesScanned =
      st.stats.filesScanned := by
  unfold syncFileModel syncFileApply
  rw [hdry, hdir]
  simp only [Bool.false_eq_true, if_false]
  repeat' split
  all_goals refine ⟨?_, ?_, ?_⟩ <;> (try simp) <;> omega

/-- Helper: one dispatch-loop iteration has the same counter effect (the
dispatcher only ever adds to `ErrorsEncountered`). -/
theorem processFile_counts (opts : SyncOptions)
    (destMap : List (String × FileInfo)) (rel : String → String → String)
    (source : String) (st : SyncState) (t : FileInfo × FileEnv)
    (hdry : opts.dryRun = false) (hdir : t.1.isDir = false) :
    ((processFile opts destMap rel source st t).stats.filesCreated +
        (processFile opts destMap rel source st t).stats.filesModified) -
        (processFile opts destMap rel source st t).stats.filesChanged =
      (st.stats.filesCreated + st.stats.filesModified) -
        st.stats.filesChanged ∧
    (processFile opts destMap rel source st t).stats.filesChanged ≤
      st.stats.filesChanged + 1 ∧
    (processFile opts destMap rel source st t).stats.filesScanned =
      st.stats.filesScanned := by
  have h := syncFileModel_counts opts t.1
    (lookupDest destMap (rel source t.1.path)) t.2 st hdry hdir
  unfold processFile
  rcases hm : syncFileModel opts t.1
      (lookupDest destMap (rel source t.1.path)) t.2 st with ⟨st', r⟩
  rw [hm] at h
  cases r with
  | some e =>
    simp at h ⊢
    omega
  | none =>
    simp at h ⊢
    omega

/-- Helper: the counter effect of the whole dispatch loop: the difference
`(created + modified) - changed` is preserved and `changed` grows by at
most the number of dispatched entries. -/
theorem runTasks_counts (opts : SyncOptions) (rel : String → String → String)
    (source : String) (destMap : List (String × FileInfo))
    (ts : List (FileInfo × FileEnv)) (st : SyncState)
    (hdry : opts.dryRun = false)
    (hdirs : ∀ t ∈ ts, (t : FileInfo × FileEnv).1.isDir = false) :
    ((runTasks opts rel source destMap ts st).stats.filesCreated +
        (runTasks opts rel source destMap ts st).stats.filesModified) -
        (runTasks opts rel source destMap ts st).stats.filesChanged =
      (st.stats.filesCreated + st.stats.filesModified) -
        st.stats.filesChanged ∧
    (runTasks opts rel source destMap ts st).stats.filesChanged ≤
      st.stats.filesChanged + ts.length ∧
    (runTasks opts rel source destMap ts st).stats.filesScanned =
      st.stats.filesScanned := by
  induction ts generalizing st with
  | nil =>
    refine ⟨rfl, by simp [runTasks], rfl⟩
  | cons t rest ih =>
    have ht : t.1.isDir = false := hdirs t (List.mem_cons_self t rest)
    have hstep := processFile_counts opts destMap rel source st t hdry ht
    have hrest := ih (processFile opts destMap rel source st t)
      (fun x hx => hdirs x (List.mem_cons_of_mem t hx))
    unfold runTasks at hrest ⊢
    simp only [List.foldl_cons]
    refine ⟨by omega, ?_, by omega⟩
    have hlen : ((t :: rest).length : Int) = (rest.length : Int) + 1 := by
      simp
    omega

/-- Claim C2 as amended: `changed ≤ scanned` holds after every prefix of
the dispatch loop, but `created + modified ≤ changed` only holds when the
run is not a dry run and dispatches no directory entries — dry-run marks
and directory creations increment `created`/`modified` without ever
incrementing `changed` (see the counterexample). Under those hypotheses
both inequalities hold at every per-file step. -/
theorem claim_C2_amended (opts : SyncOptions) (rel : String → String → String)
    (source destination : String) (tasks : List (FileInfo × FileEnv))
    (destFiles : List FileInfo) (k : Nat)
    (hdry : opts.dryRun = false)
    (hdirs : ∀ t ∈ tasks, (t : FileInfo × FileEnv).1.isDir = false) :
    ((runTasks opts rel source (buildDestMap rel destination destFiles)
        (tasks.take k) (initState tasks.length)).stats.filesCreated +
      (runTasks opts rel source (buildDestMap rel destination destFiles)
        (tasks.take k) (initState tasks.length)).stats.filesModified ≤
      (runTasks opts rel source (buildDestMap rel destination destFiles)
        (tasks.take k) (initState tasks.length)).stats.filesChanged) ∧
    (runTasks opts rel source (buildDestMap rel destination destFiles)
        (tasks.take k) (initState tasks.length)).stats.filesChanged ≤
      (runTasks opts rel source (buildDestMap rel destination destFiles)
        (tasks.take k) (initState tasks.length)).stats.filesScanned := by
  have hdirs' : ∀ t ∈ tasks.take k, (t : FileInfo × FileEnv).1.isDir = false :=
    fun t ht => hdirs t (List.take_subset k tasks ht)
  have h := runTasks_counts opts rel source
    (buildDestMap rel destination destFiles) (tasks.take k)
    (initState tasks.length) hdry hdirs'
  have hlen : (tasks.take k).length ≤ tasks.length := by
    simpa using List.length_take_le k tasks
  have h0c : (initState tasks.length).stats.filesCreated = 0 := rfl
  have h0m : (initState tasks.length).stats.filesModified = 0 := rfl
  have h0ch : (initState tasks.length).stats.filesChanged = 0 := rfl
  have h0s : (initState tasks.length).stats.filesScanned =
      (tasks.length : Int) := rfl
  constructor <;> omega

/-- Witness for the amended claim C2: a one-file non-dry-run mirror
dispatch satisfies both inequalities after its single step. -/
theorem claim_C2_amended_witness :
    ((runTasks mirrorOpts (fun _ p => p) "/src"
        (buildDestMap (fun _ p => p) "/dst" [])
        (([(s5File 1, ({} : FileEnv))]).take 1)
        (initState [(s5File 1, ({} : FileEnv))].length)).stats.filesCreated +
      (runTasks mirrorOpts (fun _ p => p) "/src"
        (buildDestMap (fun _ p => p) "/dst" [])
        (([(s5File 1, ({} : FileEnv))]).take 1)
        (initState [(s5File 1, ({} : FileEnv))].length)).stats.filesModified ≤
      (runTasks mirrorOpts (fun _ p => p) "/src"
        (buildDestMap (fun _ p => p) "/dst" [])
        (([(s5File 1, ({} : FileEnv))]).take 1)
        (initState [(s5File 1, ({} : FileEnv))].length)).stats.filesChanged) ∧
    (runTasks mirrorOpts (fun _ p => p) "/src"
        (buildDestMap (fun _ p => p) "/dst" [])
        (([(s5File 1, ({} : FileEnv))]).take 1)
        (initState [(s5File 1, ({} : FileEnv))].length)).stats.filesChanged ≤
      (runTasks mirrorOpts (fun _ p => p) "/src"
        (buildDestMap (fun _ p => p) "/dst" [])
        (([(s5File 1, ({} : FileEnv))]).take 1)
        (initState [(s5File 1, ({} : FileEnv))].length)).stats.filesScanned :=
  claim_C2_amended mirrorOpts (fun _ p => p) "/src" "/dst"
    [(s5File 1, {})] [] 1 rfl
    (by
      intro t ht
      rw [List.mem_singleton] at ht
      subst ht
      rfl)

/-- Helper: a dispatched entry whose destination lookup yields a record
of equal size, modification time and digest never reaches the copier
(`needsSync` is false, or the entry aborts before the lookup on a
relative-path failure), leaving the copier-call count and the created,
modified and bytes-transferred counters untouched. -/
theorem processFile_noCopy (opts : SyncOptions)
    (destMap : List (String × FileInfo)) (rel : String → String → String)
    (source : String) (st : SyncState) (t : FileInfo × FileEnv)
    (h : ∃ d : FileInfo,
      lookupDest destMap (rel source t.1.path) = some d ∧
      d.size = t.1.size ∧ d.modTime = t.1.modTime ∧ d.checksum = t.1.checksum) :
    (processFile opts destMap rel source st t).copierCalls = st.copierCalls ∧
    (processFile opts destMap rel source st t).stats.filesCreated =
      st.stats.filesCreated ∧
    (processFile opts destMap rel source st t).stats.filesModified =
      st.stats.filesModified ∧
    (processFile opts destMap rel source st t).stats.bytesTransferred =
      st.stats.bytesTransferred := by
  obtain ⟨d, hd, hsz, hmt, hck⟩ := h
  have hns : needsSync t.1 d opts = false := by
    unfold needsSync
    rw [hsz, hmt, hck]
    simp
  unfold processFile syncFileModel
  rw [hd]
  cases t.2.relErr with
  | some e =>
    simp
  | none =>
    dsimp only
    rw [hns]
    simp

/-- Helper: the whole dispatch loop performs zero copies and leaves those
counters untouched when every entry's destination lookup matches in size,
time and digest. -/
theorem runTasks_noCopy (opts : SyncOptions)
    (rel : String → String → String) (source : String)
    (destMap : List (String × FileInfo))
    (ts : List (FileInfo × FileEnv)) (st : SyncState)
    (h : ∀ t ∈ ts, ∃ d : FileInfo,
      lookupDest destMap (rel source (t : FileInfo × FileEnv).1.path) = some d ∧
      d.size = t.1.size ∧ d.modTime = t.1.modTime ∧ d.checksum = t.1.checksum) :
    (runTasks opts rel source destMap ts st).copierCalls = st.copierCalls ∧
    (runTasks opts rel source destMap ts st).stats.filesCreated =
      st.stats.filesCreated ∧
    (runTasks opts rel source destMap ts st).stats.filesModified =
      st.stats.filesModified ∧
    (runTasks opts rel source destMap ts st).stats.bytesTransferred =
      st.stats.bytesTransferred := by
  induction ts generalizing st with
  | nil => exact ⟨rfl, rfl, rfl, rfl⟩
  | cons t rest ih =>
    have hstep := processFile_noCopy opts destMap rel source st t
      (h t (List.mem_cons_self t rest))
    have hrest := ih (processFile opts destMap rel source st t)
      (fun x hx => h x (List.mem_cons_of_mem t hx))
    unfold runTasks at hrest ⊢
    simp only [List.foldl_cons]
    exact ⟨hrest.1.trans hstep.1, hrest.2.1.trans hstep.2.1,
      hrest.2.2.1.trans hstep.2.2.1, hrest.2.2.2.trans hstep.2.2.2⟩

/-- Claim C5: `needs_sync` returns false for every pair with equal size,
equal modification time and equal digest (under any options, checksum
verification included); consequently a second `mirror`/`sync` over trees
in that relation — every source entry's destination lookup matching, as a
successful first mirror with time preservation leaves them — performs
zero copier calls and ends with `created`, `modified` and
`bytes_transferred` all zero, and completes without error. -/
theorem claim_C5 :
    (∀ (src dst : FileInfo) (opts : SyncOptions),
      src.size = dst.size → src.modTime = dst.modTime →
      src.checksum = dst.checksum → needsSync src dst opts = false) ∧
    (∀ (opts : SyncOptions) (rel : String → String → String)
       (source destination : String)
       (tasks : List (FileInfo × FileEnv)) (destFiles : List FileInfo),
      (∀ t ∈ tasks, ∃ d : FileInfo,
        lookupDest (buildDestMap rel destination destFiles)
            (rel source (t : FileInfo × FileEnv).1.path) = some d ∧
        d.size = t.1.size ∧ d.modTime = t.1.modTime ∧
        d.checksum = t.1.checksum) →
      (syncModel opts source destination rel (.ok tasks) (.ok destFiles)).2 =
        none ∧
      (syncModel opts source destination rel
        (.ok tasks) (.ok destFiles)).1.copierCalls = 0 ∧
      (syncModel opts source destination rel
        (.ok tasks) (.ok destFiles)).1.stats.filesCreated = 0 ∧
      (syncModel opts source destination rel
        (.ok tasks) (.ok destFiles)).1.stats.filesModified = 0 ∧
      (syncModel opts source destination rel
        (.ok tasks) (.ok destFiles)).1.stats.bytesTransferred = 0) := by
  constructor
  · intro src dst opts h1 h2 h3
    unfold needsSync
    rw [h1, h2, h3]
    simp
  · intro opts rel source destination tasks destFiles h
    have hrun := runTasks_noCopy opts rel source
      (buildDestMap rel destination destFiles) tasks
      (initState tasks.length) h
    unfold syncModel
    dsimp only
    exact ⟨rfl, hrun.1, hrun.2.1, hrun.2.2.1, hrun.2.2.2⟩

/-- Witness for claim C5: a one-file tree mirrored onto an identical
destination (same relative path, size, time, digest) performs zero copies
and leaves the created/modified/bytes counters at zero. -/
theorem claim_C5_witness :
    (syncModel mirrorOpts "/src" "/dst" (fun _ p => p)
        (.ok [(s5File 1, {})]) (.ok [s5File 1])).2 = none ∧
    (syncModel mirrorOpts "/src" "/dst" (fun _ p => p)
        (.ok [(s5File 1, {})]) (.ok [s5File 1])).1.copierCalls = 0 ∧
    (syncModel mirrorOpts "/src" "/dst" (fun _ p => p)
        (.ok [(s5File 1, {})]) (.ok [s5File 1])).1.stats.filesCreated = 0 ∧
    (syncModel mirrorOpts "/src" "/dst" (fun _ p => p)
        (.ok [(s5File 1, {})]) (.ok [s5File 1])).1.stats.filesModified = 0 ∧
    (syncModel mirrorOpts "/src" "/dst" (fun _ p => p)
        (.ok [(s5File 1, {})]) (.ok [s5File 1])).1.stats.bytesTransferred = 0 :=
  claim_C5.2 mirrorOpts (fun _ p => p) "/src" "/dst"
    [(s5File 1, {})] [s5File 1]
    (by
      intro t ht
      rw [List.mem_singleton] at ht
      subst ht
      exact ⟨s5File 1, by decide, rfl, rfl, rfl⟩)

end Relay
